import Mathlib

/-!
Shallow embedding of the Analysis & Alerting Engine of the
AquaponicAISystem repository.

Sources embedded here:
- src/hydroponics/analysis/trend_analyzer.py   (TrendAnalyzer)
- src/hydroponics/analysis/parameter_analyzer.py (ParameterAnalyzer.analyze_correlations_advanced)
- src/hydroponics/alerts/manager.py            (AlertManager)

Modelling conventions:
- Python floats are modelled as rationals.  All comparisons in the source
  are order comparisons and min/abs, which the rationals model exactly.
- Timestamps are modelled as rational instants (seconds for the trend
  code, which divides differences by 3600; minutes for the alert-cooldown
  code, whose only time arithmetic is a comparison against a
  30-minute window).
- A Python dict with optional keys is modelled as a structure of Option
  fields.  Where the source distinguishes a key that is absent from a key
  whose value is None (dict.get with a default returns the default only
  when the key is absent), a dedicated three-valued type is used.
- A Python function that can raise an exception is modelled as returning
  an Option, with none standing for the raised exception.
- Natural-language strings that interpolate numbers via f-strings
  (recommendations, explanations) are not behaviourally relevant to the
  claims; where a claim needs the numeric figure embedded into such a
  string, the figure itself is carried as a field of the result.
-/

/-! ### TrendAnalyzer._calculate_trend, lines 118-156 -/

/-- Direction classification of a fitted slope, trend_analyzer.py lines
146-154: very small magnitude is stable, slope above 0.05 is rising,
below -0.05 is falling, and the remaining dead zone is stable. -/
def classifyDirection (slope : ℚ) : String :=
  if |slope| < 0.01 then "stable"
  else if slope > 0.05 then "rising"
  else if slope < -0.05 then "falling"
  else "stable"

/-- Elapsed hours from the first timestamp, trend_analyzer.py lines
126-131.  Timestamps are rational instants in seconds; the source parses
ISO strings and divides the difference by 3600. -/
def hoursFrom (timestamps : List ℚ) : List ℚ :=
  match timestamps with
  | [] => []
  | t0 :: _ => timestamps.map (fun t => (t - t0) / 3600)

/-- Ordinary least-squares slope with the zero-denominator guard,
trend_analyzer.py lines 133-144. -/
def olsSlope (hours values : List ℚ) : ℚ :=
  let n : ℚ := values.length
  let sum_x := hours.sum
  let sum_y := values.sum
  let sum_xy := ((hours.zip values).map (fun p => p.1 * p.2)).sum
  let sum_x2 := (hours.map (fun h => h * h)).sum
  if n * sum_x2 - sum_x * sum_x = 0 then 0
  else (n * sum_xy - sum_x * sum_y) / (n * sum_x2 - sum_x * sum_x)

/-- TrendAnalyzer._calculate_trend, lines 118-156: fewer than two values
gives ("stable", 0); otherwise the OLS slope over elapsed hours is
classified into a direction. -/
def calculateTrend (values : List ℚ) (timestamps : List ℚ) : String × ℚ :=
  if values.length < 2 then ("stable", 0)
  else
    let slope := olsSlope (hoursFrom timestamps) values
    (classifyDirection slope, slope)

/-! ### TrendAnalyzer._calculate_volatility, lines 158-174 -/

/-- Mean of a list of rationals (statistics.mean). -/
def listMean (values : List ℚ) : ℚ :=
  values.sum / values.length

/-- Sample variance (denominator n - 1), the square of statistics.stdev. -/
def sampleVar (values : List ℚ) : ℚ :=
  let m := listMean values
  ((values.map (fun v => (v - m) * (v - m))).sum) / (values.length - 1)

/-- Decides cv < c for c > 0 and nonzero mean, where
cv = stdev / mean * 100 and stdev is the nonnegative square root of the
sample variance.  Stated over rationals by algebraising the square root:
for a negative mean cv is nonpositive, hence below any positive c; for a
positive mean, stdev * 100 / mean < c iff 10000 * var < c ^ 2 * mean ^ 2. -/
def cvLt (values : List ℚ) (c : ℚ) : Bool :=
  let m := listMean values
  if m < 0 then true
  else decide (10000 * sampleVar values < c ^ 2 * m ^ 2)

/-- TrendAnalyzer._calculate_volatility, lines 158-174: fewer than three
points is unknown; otherwise the coefficient of variation
cv = (stdev / mean) * 100 is computed, with the source substituting
cv = 0 when the mean is zero, and classified as stable (cv < 2),
moderate (cv < 5), or volatile. -/
def calculateVolatility (values : List ℚ) : String :=
  if values.length < 3 then "unknown"
  else if listMean values = 0 then "stable"
  else if cvLt values 2 then "stable"
  else if cvLt values 5 then "moderate"
  else "volatile"

example : calculateVolatility [(-1 : ℚ), 0, 1] = "stable" := by
  norm_num [calculateVolatility, listMean]

example : classifyDirection (3 / 100) = "stable" := by
  norm_num [classifyDirection]

example : classifyDirection (6 / 100) = "rising" := by
  norm_num [classifyDirection, abs]

/-! ### AlertManager, alerts/manager.py

The alert dictionaries built in _check_sensor_threshold carry a
wall-clock timestamp string and a message f-string interpolating the
sensor name and value; the timestamp is not read anywhere in the engine
and the variable part of the message is its severity phrase, which is
what the message field below records. -/

/-- One alert, as built by AlertManager._check_sensor_threshold. -/
structure Alert where
  level : String
  sensor : String
  value : ℚ
  threshold : ℚ
  message : String
  deriving DecidableEq, Repr

/-- One entry of AlertManager.thresholds (manager.py lines 58-105): a
dict whose keys are all optional (water_level_percent omits the two
high bounds). -/
structure ThresholdDict where
  critical_low : Option ℚ := none
  warning_low : Option ℚ := none
  warning_high : Option ℚ := none
  critical_high : Option ℚ := none
  optimal_min : Option ℚ := none
  optimal_max : Option ℚ := none
  deriving DecidableEq, Repr

/-- The condition of a guard of the form
key in thresholds and value below the bound stored under that key. -/
def belowBound (value : ℚ) : Option ℚ → Bool
  | some b => value < b
  | none => false

/-- The condition of a guard of the form
key in thresholds and value above the bound stored under that key. -/
def aboveBound (value : ℚ) : Option ℚ → Bool
  | some b => b < value
  | none => false

/-- AlertManager._check_sensor_threshold, manager.py lines 136-188:
four guards in a fixed order, first match wins, absent bounds skipped.
In each matching branch the bound is present, so the getD default is
never read. -/
def checkSensorThreshold (sensor_name : String) (value : ℚ)
    (thresholds : ThresholdDict) : Option Alert :=
  if belowBound value thresholds.critical_low then
    some ⟨"critical", sensor_name, value, thresholds.critical_low.getD 0,
      "dangerously low"⟩
  else if aboveBound value thresholds.critical_high then
    some ⟨"critical", sensor_name, value, thresholds.critical_high.getD 0,
      "dangerously high"⟩
  else if belowBound value thresholds.warning_low then
    some ⟨"warning", sensor_name, value, thresholds.warning_low.getD 0,
      "low"⟩
  else if aboveBound value thresholds.warning_high then
    some ⟨"warning", sensor_name, value, thresholds.warning_high.getD 0,
      "high"⟩
  else none

/-- AlertManager.__init__, manager.py line 31. -/
def cooldown_minutes : ℚ := 30

/-- The per-sensor threshold table installed by AlertManager.__init__,
manager.py lines 58-105. -/
def alertThresholds : String → Option ThresholdDict := fun name =>
  if name = "ph" then
    some ⟨some 5.0, some 5.5, some 7.5, some 8.0, some 6.0, some 7.0⟩
  else if name = "ec" then
    some ⟨some 0.5, some 0.8, some 2.5, some 3.0, some 1.0, some 1.8⟩
  else if name = "do" then
    some ⟨some 4.0, some 5.0, some 12.0, some 15.0, some 6.0, some 9.0⟩
  else if name = "temp_reservoir" then
    some ⟨some 10.0, some 16.0, some 24.0, some 28.0, some 18.0, some 22.0⟩
  else if name = "temp_fish_tank" then
    some ⟨some 8.0, some 10.0, some 18.0, some 20.0, some 12.0, some 15.0⟩
  else if name = "water_level_percent" then
    some ⟨some 20.0, some 30.0, none, none, some 50.0, some 90.0⟩
  else none

/-- The alert-history key, manager.py lines 192 and 205:
the string sensor_name + underscore + level. -/
def alertKey (alert : Alert) : String := alert.sensor ++ "_" ++ alert.level

/-- The alert history: last-sent instant (in minutes) per key.  The dict
self.alert_history is modelled as a total function into Option. -/
def AlertHistory : Type := String → Option ℚ

/-- AlertManager._is_in_cooldown, manager.py lines 190-201:
true when the key has an entry whose age is strictly below the
cooldown window. -/
def isInCooldown (history : AlertHistory) (alert : Alert) (now : ℚ) : Bool :=
  match history (alertKey alert) with
  | some last_sent => now - last_sent < cooldown_minutes
  | none => false

/-- AlertManager._record_alert, manager.py lines 203-206: overwrite the
entry at the alert key with the current instant. -/
def recordAlert (history : AlertHistory) (alert : Alert) (now : ℚ) :
    AlertHistory :=
  fun key => if key = alertKey alert then some now else history key

/-- The cooldown gate applied to one evaluated alert inside
AlertManager.check_thresholds, manager.py lines 124-132: a suppressed
alert is dropped and the history untouched; an accepted alert is
recorded.  The boolean reports acceptance. -/
def processAlert (history : AlertHistory) (alert : Alert) (now : ℚ) :
    Bool × AlertHistory :=
  if isInCooldown history alert now then (false, history)
  else (true, recordAlert history alert now)

/-- AlertManager.check_thresholds, manager.py lines 107-134: walk the
sensors in order; skip missing values and sensors without thresholds;
evaluate each remaining sensor and push its alert through the cooldown
gate.  Notification sending (line 132) is external input/output with no effect
on the returned alerts or the history.  The source calls datetime.now()
per record; the single instant `now` stands for the wall clock during
the call. -/
def checkThresholds (table : String → Option ThresholdDict)
    (sensors : List (String × Option ℚ)) (history : AlertHistory)
    (now : ℚ) : List Alert × AlertHistory :=
  match sensors with
  | [] => ([], history)
  | (sensor_name, value?) :: rest =>
    match value? with
    | none => checkThresholds table rest history now
    | some value =>
      match table sensor_name with
      | none => checkThresholds table rest history now
      | some thresholds =>
        match checkSensorThreshold sensor_name value thresholds with
        | none => checkThresholds table rest history now
        | some alert =>
          let step := processAlert history alert now
          let restResult := checkThresholds table rest step.2 now
          (if step.1 then alert :: restResult.1 else restResult.1,
           restResult.2)

/-! ### TrendAnalyzer._assess_concern, trend_analyzer.py lines 186-302 -/

/-- One entry of the predictive threshold dict defined inside
_assess_concern (lines 191-216); all six bounds are present for the
three parameters that have an entry. -/
structure PredThresh where
  critical_low : ℚ
  warning_low : ℚ
  optimal_low : ℚ
  optimal_high : ℚ
  warning_high : ℚ
  critical_high : ℚ
  deriving DecidableEq, Repr

/-- The predictive threshold table of _assess_concern,
trend_analyzer.py lines 191-216; thresholds.get(parameter, {}) yields
none for any other parameter. -/
def predictiveThresholds : String → Option PredThresh := fun parameter =>
  if parameter = "ph" then some ⟨6.0, 6.5, 6.8, 7.5, 8.0, 8.5⟩
  else if parameter = "temperature" then some ⟨15, 18, 20, 24, 26, 28⟩
  else if parameter = "do" then some ⟨4, 6, 7, 10, 12, 15⟩
  else none

/-- Python round-half-to-even of a rational, the rounding mode of the
built-in round. -/
def roundHalfEven (x : ℚ) : ℤ :=
  let n := ⌊x⌋
  let frac := x - n
  if frac < 1 / 2 then n
  else if 1 / 2 < frac then n + 1
  else if Even n then n else n + 1

/-- round(x, 1): round to one decimal place. -/
def round1 (x : ℚ) : ℚ := (roundHalfEven (10 * x) : ℚ) / 10

/-- The truthiness test of a guard of the form
`if hours and hours < bound`: None and 0.0 are falsy in Python, so the
guard holds only for a present, nonzero value below the bound. -/
def truthyLt (hours : Option ℚ) (bound : ℚ) : Bool :=
  match hours with
  | some q => decide (¬q = 0 ∧ q < bound)
  | none => false

/-- The concern assessment of _assess_concern: its level and the
time-to-threshold it reports.  The recommendation f-strings (pure
wording around the same numbers) are not modelled. -/
structure Concern where
  level : String
  time_to_threshold : Option ℚ
  deriving DecidableEq, Repr

/-- TrendAnalyzer._assess_concern, lines 186-302.  The falling branch
(lines 229-258) divides by abs(rate); the rising branch
(lines 261-287) divides by rate; the final branch (lines 290-300)
covers a stable trend and any direction-rate mismatch.  In the watch
and none outcomes the returned dict carries no time_to_threshold key,
so concern.get of it yields None. -/
def assessConcern (parameter : String) (current : ℚ) (trend : String)
    (rate : ℚ) : Concern :=
  match predictiveThresholds parameter with
  | none => ⟨"none", none⟩
  | some thresh =>
    if trend = "falling" ∧ rate < 0 then
      let hours_to_warning : Option ℚ :=
        if thresh.warning_low < current then
          some ((current - thresh.warning_low) / |rate|) else none
      let hours_to_critical : Option ℚ :=
        if thresh.critical_low < current then
          some ((current - thresh.critical_low) / |rate|) else none
      if truthyLt hours_to_critical 12 then
        ⟨"critical", hours_to_critical.map round1⟩
      else if truthyLt hours_to_warning 24 then
        ⟨"warning", hours_to_warning.map round1⟩
      else if thresh.optimal_low < current then ⟨"watch", none⟩
      else ⟨"none", none⟩
    else if trend = "rising" ∧ 0 < rate then
      let hours_to_warning : Option ℚ :=
        if current < thresh.warning_high then
          some ((thresh.warning_high - current) / rate) else none
      let hours_to_critical : Option ℚ :=
        if current < thresh.critical_high then
          some ((thresh.critical_high - current) / rate) else none
      if truthyLt hours_to_critical 12 then
        ⟨"critical", hours_to_critical.map round1⟩
      else if truthyLt hours_to_warning 24 then
        ⟨"warning", hours_to_warning.map round1⟩
      else if current < thresh.optimal_high then ⟨"watch", none⟩
      else ⟨"none", none⟩
    else
      if thresh.optimal_low ≤ current ∧ current ≤ thresh.optimal_high then
        ⟨"none", none⟩
      else ⟨"watch", none⟩

/-! ### ParameterAnalyzer.analyze_correlations_advanced,
parameter_analyzer.py lines 313-512 -/

/-- A dict value that may be absent, present as None, or a number;
needed because dict.get(key, default) returns the default only when the
key is absent, while a key stored as None comes back as None. -/
inductive PyNum where
  | absent : PyNum
  | null : PyNum
  | val : ℚ → PyNum
  deriving DecidableEq, Repr

/-- dict.get(key, default) for a PyNum field: the retrieved object,
none meaning the Python value None. -/
def PyNum.getD (x : PyNum) (default : ℚ) : Option ℚ :=
  match x with
  | .absent => some default
  | .null => none
  | .val q => some q

/-- Python min of two retrieved numbers: min raises a TypeError when
either argument is None. -/
def pyMin (a b : Option ℚ) : Option ℚ :=
  match a, b with
  | some x, some y => some (min x y)
  | _, _ => none

/-- The fields of a per-parameter trend dict that
analyze_correlations_advanced reads: trend, concern_level and
time_to_threshold.  The first two are strings when present; the trend
dicts produced by TrendAnalyzer.analyze_parameter_trend store
time_to_threshold as either a number or None, and omit all these keys
only in the insufficient-data outcome, hence the three-valued field. -/
structure TrendEntry where
  trend : Option String := none
  concern_level : Option String := none
  time_to_threshold : PyNum := PyNum.absent
  deriving DecidableEq, Repr

/-- trends.get(parameter, {}): the empty dict has every key absent. -/
def emptyTrendEntry : TrendEntry := {}

/-- The readings dict: each of the three parameters read by the
correlation engine may be absent. -/
structure Readings where
  ph : Option ℚ := none
  temperature : Option ℚ := none
  do_ : Option ℚ := none
  deriving DecidableEq, Repr

/-- The trends dict passed to the correlation engine. -/
structure Trends where
  ph : Option TrendEntry := none
  temperature : Option TrendEntry := none
  do_ : Option TrendEntry := none
  deriving DecidableEq, Repr

/-- One entry of intervention_priority. -/
structure Intervention where
  order : ℕ
  action : String
  why : String
  method : String
  deriving DecidableEq, Repr

/-- The analysis dict of analyze_correlations_advanced
(parameter_analyzer.py lines 326-333).  The explanation and
predicted_outcome f-strings are narrative wording; the numeric urgency
figure they interpolate (critical_hours in pattern 1, line 355;
min(temp_hours, do_hours) in pattern 2, line 453; hours_remaining in
pattern 3, line 465) is carried in the critical_hours field, none when
the pattern computes no such figure. -/
structure Analysis where
  root_cause : Option String := none
  cascading_effects : List String := []
  intervention_priority : List Intervention := []
  system_state : String := "unknown"
  critical_hours : Option ℚ := none
  deriving DecidableEq, Repr

/-- ParameterAnalyzer.analyze_correlations_advanced, lines 313-512.
Result none models a raised TypeError: pattern 1 takes
min(ph_hours, do_hours) (line 355), pattern 2 min(temp_hours, do_hours)
(line 453) and pattern 3 formats hours_remaining (line 470), each of
which raises when the retrieved time_to_threshold is None.  The
cascading-effect strings are transliterated to ASCII. -/
def analyzeCorrelationsAdvanced (readings : Readings) (trends : Trends) :
    Option Analysis :=
  let ph := readings.ph.getD 7.0
  let temp := readings.temperature.getD 22.0
  let do_ := readings.do_.getD 7.5
  let ph_trend := trends.ph.getD emptyTrendEntry
  let temp_trend := trends.temperature.getD emptyTrendEntry
  let do_trend := trends.do_.getD emptyTrendEntry
  if ph < 6.5 ∧ ph_trend.trend = some "falling" ∧
      do_ < 7 ∧ do_trend.trend = some "falling" then
    let ph_hours := ph_trend.time_to_threshold.getD 999
    let do_hours := do_trend.time_to_threshold.getD 999
    match pyMin ph_hours do_hours with
    | none => none
    | some critical_hours =>
      some
        { root_cause := some "Biofilter collapse cascade"
          system_state := "critical_cascade"
          cascading_effects :=
            ["1. Low pH inhibits nitrifying bacteria",
             "2. Bacteria produce less, consume less O2",
             "3. Incomplete nitrification -> excess CO2",
             "4. CO2 further lowers pH (positive feedback loop)",
             "5. DO drops as CO2 displaces oxygen",
             "6. Fish stress -> stop eating -> less waste",
             "7. Bacteria starve -> die off accelerates",
             "DOWNWARD SPIRAL ACTIVE"]
          intervention_priority :=
            [⟨1, "IMMEDIATE: Raise pH to 7.0+",
              "Breaks the cascade at root cause",
              "Add 3 tsp sodium bicarbonate per 5 gal"⟩,
             ⟨2, "IMMEDIATE: Maximize aeration",
              "Prevents fish death while pH recovers",
              "Add extra air stones, increase pump flow"⟩,
             ⟨3, "Stop feeding for 24-48h",
              "Reduces CO2 production, gives bacteria time to recover",
              "No food until pH stable above 6.8"⟩,
             ⟨4, "Monitor ammonia every 2 hours",
              "Biofilter compromised, ammonia may spike",
              "Test kit, be ready for emergency water change"⟩]
          critical_hours := some critical_hours }
  else if temp > 25 ∧ temp_trend.trend = some "rising" ∧
      do_ < 7 ∧ do_trend.trend = some "falling" then
    let temp_hours := temp_trend.time_to_threshold.getD 999
    let do_hours := do_trend.time_to_threshold.getD 999
    match pyMin temp_hours do_hours with
    | none => none
    | some critical_hours =>
      some
        { root_cause := some "Temperature rising -> Oxygen capacity falling"
          system_state := "temperature_oxygen_cascade"
          cascading_effects :=
            ["1. Water temp high",
             "2. Oxygen saturation capacity decreasing",
             "3. Max DO limited at this temperature",
             "4. Current DO low",
             "5. Fish metabolism increases with temp (need MORE O2)",
             "6. Available oxygen decreases (can provide LESS O2)",
             "7. Mismatch growing -> stress increasing"]
          intervention_priority :=
            [⟨1, "Cool water immediately",
              "Root cause - fixes DO capacity",
              "Add frozen water bottles, shade reservoir, reduce light hours"⟩,
             ⟨2, "Increase aeration 50%",
              "Compensates while cooling",
              "Additional air stones or venturi"⟩,
             ⟨3, "Reduce feeding by 50%",
              "Lowers oxygen demand",
              "Feed less until temp below 24C"⟩]
          critical_hours := some critical_hours }
  else if ph_trend.trend = some "falling" ∧
      (ph_trend.concern_level = some "warning" ∨
       ph_trend.concern_level = some "critical") then
    match ph_trend.time_to_threshold.getD 24 with
    | none => none
    | some hours_remaining =>
      some
        { root_cause := some "pH declining - catch it early!"
          system_state := "preventive_action_needed"
          intervention_priority :=
            [⟨1, "Raise pH within the remaining hours",
              "Prevent cascade before it starts",
              "Add buffer now while you have time"⟩,
             ⟨2, "Identify why pH is falling",
              "Prevent recurrence",
              "Check: overfeeding? low alkalinity? high CO2?"⟩]
          critical_hours := some hours_remaining }
  else if 6.5 ≤ ph ∧ ph ≤ 7.5 ∧ 18 ≤ temp ∧ temp ≤ 24 ∧ 6 ≤ do_ ∧
      ph_trend.trend = some "stable" ∧
      temp_trend.trend = some "stable" ∧
      do_trend.trend = some "stable" then
    some { system_state := "optimal_stable" }
  else
    some {}

/-- Membership of a value in the optimal band that the predictive
threshold table of _assess_concern defines for a parameter. -/
def inOptimalBand (parameter : String) (x : ℚ) : Prop :=
  ∃ th, predictiveThresholds parameter = some th ∧
    th.optimal_low ≤ x ∧ x ≤ th.optimal_high

/-! ## Theorems -/

/-- C6: classifyDirection returns rising exactly for slopes strictly
above 0.05, falling exactly for slopes strictly below -0.05, and stable
exactly on the closed interval between them, which covers both the
small-magnitude zone below 0.01 and the dead zone up to 0.05. -/
theorem classifyDirection_spec :
    ∀ slope : ℚ,
      (classifyDirection slope = "rising" ↔ 0.05 < slope) ∧
      (classifyDirection slope = "falling" ↔ slope < -0.05) ∧
      (classifyDirection slope = "stable" ↔
        -0.05 ≤ slope ∧ slope ≤ 0.05) := by
  intro slope
  unfold classifyDirection
  have hso : (0.01 : ℚ) < 0.05 := by norm_num
  split_ifs with h1 h2 h3
  · rw [abs_lt] at h1
    refine ⟨⟨fun h => absurd h (by decide), fun h => ?_⟩,
      ⟨fun h => absurd h (by decide), fun h => ?_⟩,
      fun _ => ⟨by linarith, by linarith⟩, fun _ => rfl⟩
    · exact absurd h (by linarith)
    · exact absurd h (by linarith)
  · refine ⟨⟨fun _ => h2, fun _ => rfl⟩,
      ⟨fun h => absurd h (by decide), fun h => ?_⟩,
      ⟨fun h => absurd h (by decide), fun h => ?_⟩⟩
    · exact absurd h (by linarith)
    · exact absurd h2 (by linarith [h.2])
  · refine ⟨⟨fun h => absurd h (by decide), fun h => ?_⟩,
      ⟨fun _ => h3, fun _ => rfl⟩,
      ⟨fun h => absurd h (by decide), fun h => ?_⟩⟩
    · exact absurd h (by linarith)
    · exact absurd h3 (by linarith [h.1])
  · push_neg at h2 h3
    refine ⟨⟨fun h => absurd h (by decide), fun h => ?_⟩,
      ⟨fun h => absurd h (by decide), fun h => ?_⟩,
      fun _ => ⟨h3, h2⟩, fun _ => rfl⟩
    · exact absurd h (by linarith)
    · exact absurd h (by linarith)

/-- C6 witness: a slope of 0.06 is classified rising. -/
theorem classifyDirection_spec_witness :
    classifyDirection (6 / 100) = "rising" :=
  ((classifyDirection_spec (6 / 100)).1).mpr (by norm_num)

/-- C5 counterexample: a three-point series with zero mean.  The source
substitutes cv = 0 when the mean is zero (trend_analyzer.py line 167),
so the result is stable, not unknown as the claim states. -/
theorem volatility_zero_mean_counterexample :
    calculateVolatility [(-1 : ℚ), 0, 1] = "stable" ∧
    calculateVolatility [(-1 : ℚ), 0, 1] ≠ "unknown" := by
  have h : calculateVolatility [(-1 : ℚ), 0, 1] = "stable" := by
    norm_num [calculateVolatility, listMean]
  exact ⟨h, by rw [h]; decide⟩

/-- C5 amended: volatility is unknown for fewer than three points; with
at least three points a zero mean yields stable (cv is substituted by
0); otherwise the classification follows the real coefficient of
variation cv = stdev/mean * 100: stable iff cv < 2, moderate iff
2 <= cv < 5, volatile iff 5 <= cv.  The computation is total, so no
division error is raised. -/
theorem calculateVolatility_spec (values : List ℚ) :
    (values.length < 3 → calculateVolatility values = "unknown") ∧
    (3 ≤ values.length → listMean values = 0 →
      calculateVolatility values = "stable") ∧
    (3 ≤ values.length → listMean values ≠ 0 →
      ((calculateVolatility values = "stable" ↔
        (100 : ℝ) * Real.sqrt (sampleVar values) / listMean values < 2) ∧
       (calculateVolatility values = "moderate" ↔
        (2 : ℝ) ≤ 100 * Real.sqrt (sampleVar values) / listMean values ∧
        (100 : ℝ) * Real.sqrt (sampleVar values) / listMean values < 5) ∧
       (calculateVolatility values = "volatile" ↔
        (5 : ℝ) ≤ 100 * Real.sqrt (sampleVar values) / listMean values))) := by
  have hbridge : ∀ c : ℚ, 0 < c → listMean values ≠ 0 →
      (cvLt values c = true ↔
        (100 : ℝ) * Real.sqrt (sampleVar values) / listMean values < c) := by
    intro c hc hm
    unfold cvLt
    rcases lt_trichotomy (listMean values) 0 with hneg | hzero | hpos
    · rw [if_pos hneg]
      simp only [true_iff]
      have hnum : (0 : ℝ) ≤ 100 * Real.sqrt (sampleVar values) := by
        positivity
      have hden : ((listMean values : ℚ) : ℝ) < 0 := by exact_mod_cast hneg
      have : (100 : ℝ) * Real.sqrt (sampleVar values) /
          (listMean values : ℚ) ≤ 0 :=
        div_nonpos_iff.mpr (Or.inl ⟨hnum, le_of_lt hden⟩)
      calc (100 : ℝ) * Real.sqrt (sampleVar values) /
            (listMean values : ℚ) ≤ 0 := this
        _ < c := by exact_mod_cast hc
    · exact absurd hzero hm
    · rw [if_neg (not_lt.mpr (le_of_lt hpos))]
      have hposR : (0 : ℝ) < ((listMean values : ℚ) : ℝ) := by
        exact_mod_cast hpos
      have hcR : (0 : ℝ) < (c : ℝ) := by exact_mod_cast hc
      rw [decide_eq_true_eq]
      rw [div_lt_iff hposR, show ((c : ℚ) : ℝ) * (listMean values : ℚ) =
        (c : ℝ) * ((listMean values : ℚ) : ℝ) from rfl]
      rw [show (100 : ℝ) * Real.sqrt (sampleVar values) =
        Real.sqrt (sampleVar values) * 100 from mul_comm _ _]
      have h100 : (0 : ℝ) < 100 := by norm_num
      constructor
      · intro hq
        have hvar : ((sampleVar values : ℚ) : ℝ) <
            ((c : ℝ) * (listMean values : ℚ) / 100) ^ 2 := by
          have hq' : ((sampleVar values : ℚ) : ℝ) * 10000 <
              ((c : ℚ) : ℝ) ^ 2 * ((listMean values : ℚ) : ℝ) ^ 2 := by
            have : ((10000 * sampleVar values : ℚ) : ℝ) <
                ((c ^ 2 * (listMean values) ^ 2 : ℚ) : ℝ) := by
              exact_mod_cast hq
            push_cast at this
            linarith
          rw [div_pow, mul_pow]
          rw [lt_div_iff (by norm_num : (0:ℝ) < 100 ^ 2)]
          calc ((sampleVar values : ℚ) : ℝ) * 100 ^ 2
              = ((sampleVar values : ℚ) : ℝ) * 10000 := by norm_num
            _ < ((c : ℚ) : ℝ) ^ 2 * ((listMean values : ℚ) : ℝ) ^ 2 := hq'
            _ = (c : ℝ) ^ 2 * ((listMean values : ℚ) : ℝ) ^ 2 := by
                norm_cast
        have hyp : (0 : ℝ) < (c : ℝ) * ((listMean values : ℚ) : ℝ) / 100 :=
          by positivity
        have := (Real.sqrt_lt' hyp).mpr hvar
        calc Real.sqrt ((sampleVar values : ℚ) : ℝ) * 100
            < ((c : ℝ) * ((listMean values : ℚ) : ℝ) / 100) * 100 := by
              linarith
          _ = (c : ℝ) * ((listMean values : ℚ) : ℝ) := by ring
      · intro hr
        have hsq : Real.sqrt ((sampleVar values : ℚ) : ℝ) <
            (c : ℝ) * ((listMean values : ℚ) : ℝ) / 100 := by linarith
        have hyp : (0 : ℝ) < (c : ℝ) * ((listMean values : ℚ) : ℝ) / 100 :=
          lt_of_le_of_lt (Real.sqrt_nonneg _) hsq
        have hvar := (Real.sqrt_lt' hyp).mp hsq
        have : ((sampleVar values : ℚ) : ℝ) * 10000 <
            ((c : ℝ) * ((listMean values : ℚ) : ℝ)) ^ 2 := by
          have hexp : ((c : ℝ) * ((listMean values : ℚ) : ℝ) / 100) ^ 2 =
              ((c : ℝ) * ((listMean values : ℚ) : ℝ)) ^ 2 / 10000 := by
            ring
          rw [hexp] at hvar
          have := (lt_div_iff (by norm_num : (0:ℝ) < 10000)).mp hvar
          linarith
        have : ((10000 * sampleVar values : ℚ) : ℝ) <
            ((c ^ 2 * (listMean values) ^ 2 : ℚ) : ℝ) := by
          push_cast
          nlinarith
        exact_mod_cast this
  refine ⟨?_, ?_, ?_⟩
  · intro h
    unfold calculateVolatility
    rw [if_pos h]
  · intro h3 hm
    unfold calculateVolatility
    rw [if_neg (not_lt.mpr h3), if_pos hm]
  · intro h3 hm
    have hb2 := hbridge 2 (by norm_num) hm
    have hb5 := hbridge 5 (by norm_num) hm
    unfold calculateVolatility
    rw [if_neg (not_lt.mpr h3), if_neg hm]
    by_cases hc2 : cvLt values 2 = true
    · rw [if_pos hc2]
      have hr2 := hb2.mp hc2
      refine ⟨⟨fun _ => hr2, fun _ => rfl⟩,
        ⟨fun h => absurd h (by decide), fun h => absurd hr2 (by linarith [h.1])⟩,
        ⟨fun h => absurd h (by decide), fun h => absurd hr2 (by linarith)⟩⟩
    · rw [if_neg hc2]
      have hr2 : ¬((100 : ℝ) * Real.sqrt (sampleVar values) /
          listMean values < 2) := fun h => hc2 (hb2.mpr h)
      push_neg at hr2
      by_cases hc5 : cvLt values 5 = true
      · rw [if_pos hc5]
        have hr5 := hb5.mp hc5
        refine ⟨⟨fun h => absurd h (by decide), fun h => absurd h (by linarith)⟩,
          ⟨fun _ => ⟨hr2, hr5⟩, fun _ => rfl⟩,
          ⟨fun h => absurd h (by decide), fun h => absurd hr5 (by linarith)⟩⟩
      · rw [if_neg hc5]
        have hr5 : ¬((100 : ℝ) * Real.sqrt (sampleVar values) /
            listMean values < 5) := fun h => hc5 (hb5.mpr h)
        push_neg at hr5
        refine ⟨⟨fun h => absurd h (by decide), fun h => absurd h (by linarith)⟩,
          ⟨fun h => absurd h (by decide), fun h => absurd hr5 (by linarith [h.2])⟩,
          ⟨fun _ => hr5, fun _ => rfl⟩⟩

/-- C5 witness: a constant three-point series has zero variance, hence
cv = 0 and volatility stable. -/
theorem calculateVolatility_spec_witness :
    calculateVolatility [(10 : ℚ), 10, 10] = "stable" := by
  have h := (calculateVolatility_spec [(10 : ℚ), 10, 10]).2.2
    (by norm_num) (by norm_num [listMean])
  refine h.1.mpr ?_
  have hvar : sampleVar [(10 : ℚ), 10, 10] = 0 := by
    norm_num [sampleVar, listMean]
  rw [hvar]
  norm_num [listMean]

/-- C7: on a nonempty series, the returned rate of change is the
ordinary least-squares slope over elapsed hours, guarded to 0 when the
denominator n * sum x^2 - (sum x)^2 vanishes; for a single point the
early return 0 of the source coincides with the guard, since the
denominator is then zero. -/
theorem calculateTrend_slope_spec (values timestamps : List ℚ)
    (hne : values ≠ []) (hlen : timestamps.length = values.length) :
    (calculateTrend values timestamps).2 =
      (let hours := hoursFrom timestamps
       let n : ℚ := values.length
       let sum_x := hours.sum
       let sum_y := values.sum
       let sum_xy := ((hours.zip values).map (fun p => p.1 * p.2)).sum
       let sum_x2 := (hours.map (fun h => h * h)).sum
       if n * sum_x2 - sum_x * sum_x = 0 then 0
       else (n * sum_xy - sum_x * sum_y) /
         (n * sum_x2 - sum_x * sum_x)) := by
  show (calculateTrend values timestamps).2 = olsSlope (hoursFrom timestamps) values
  unfold calculateTrend
  by_cases hlt : values.length < 2
  · rw [if_pos hlt]
    have h1 : values.length = 1 := by
      cases values with
      | nil => exact absurd rfl hne
      | cons v vs =>
        simp only [List.length_cons] at hlt ⊢
        omega
    rw [h1] at hlen
    obtain ⟨t, ht⟩ := List.length_eq_one.mp hlen
    obtain ⟨v, hv⟩ : ∃ v, values = [v] := List.length_eq_one.mp h1
    subst ht hv
    simp [olsSlope, hoursFrom]
  · rw [if_neg hlt]

/-- C7 witness: two points one hour apart with values 1 and 2 give
slope 1. -/
theorem calculateTrend_slope_spec_witness :
    (calculateTrend [(1 : ℚ), 2] [0, 3600]).2 = 1 := by
  have h := calculateTrend_slope_spec [(1 : ℚ), 2] [0, 3600]
    (by simp) (by rfl)
  rw [h]
  norm_num [hoursFrom]

/-- belowBound is false exactly when every present bound is at most the
value. -/
theorem belowBound_eq_false_iff (value : ℚ) (bound : Option ℚ) :
    belowBound value bound = false ↔ ∀ b, bound = some b → b ≤ value := by
  cases bound with
  | none => simp [belowBound]
  | some b => simp [belowBound]

/-- aboveBound is false exactly when the value is at most every present
bound. -/
theorem aboveBound_eq_false_iff (value : ℚ) (bound : Option ℚ) :
    aboveBound value bound = false ↔ ∀ b, bound = some b → value ≤ b := by
  cases bound with
  | none => simp [aboveBound]
  | some b => simp [aboveBound]

/-- C3: the four guards are evaluated in the fixed order critical_low,
critical_high, warning_low, warning_high, each with a strict
comparison, first match wins, absent bounds are skipped; and for a
monotonically configured set every value strictly inside the warning
band (vacuously where a bound is absent) produces no alert. -/
theorem checkSensorThreshold_spec (name : String) (value : ℚ)
    (th : ThresholdDict) :
    (∀ cl, th.critical_low = some cl → value < cl →
      checkSensorThreshold name value th =
        some ⟨"critical", name, value, cl, "dangerously low"⟩) ∧
    ((∀ cl, th.critical_low = some cl → cl ≤ value) →
      ∀ ch, th.critical_high = some ch → ch < value →
      checkSensorThreshold name value th =
        some ⟨"critical", name, value, ch, "dangerously high"⟩) ∧
    ((∀ cl, th.critical_low = some cl → cl ≤ value) →
      (∀ ch, th.critical_high = some ch → value ≤ ch) →
      ∀ wl, th.warning_low = some wl → value < wl →
      checkSensorThreshold name value th =
        some ⟨"warning", name, value, wl, "low"⟩) ∧
    ((∀ cl, th.critical_low = some cl → cl ≤ value) →
      (∀ ch, th.critical_high = some ch → value ≤ ch) →
      (∀ wl, th.warning_low = some wl → wl ≤ value) →
      ∀ wh, th.warning_high = some wh → wh < value →
      checkSensorThreshold name value th =
        some ⟨"warning", name, value, wh, "high"⟩) ∧
    ((th.warning_low = none → th.critical_low = none) →
      (th.warning_high = none → th.critical_high = none) →
      (∀ cl wl, th.critical_low = some cl → th.warning_low = some wl →
        cl < wl) →
      (∀ wh ch, th.warning_high = some wh → th.critical_high = some ch →
        wh < ch) →
      (∀ wl, th.warning_low = some wl → wl < value) →
      (∀ wh, th.warning_high = some wh → value < wh) →
      checkSensorThreshold name value th = none) := by
  refine ⟨?_, ?_, ?_, ?_, ?_⟩
  · intro cl hcl hlt
    unfold checkSensorThreshold
    rw [hcl]
    simp [belowBound, hlt]
  · intro hnl ch hch hgt
    unfold checkSensorThreshold
    rw [if_neg, hch]
    · simp [aboveBound, hgt]
    · simp only [Bool.not_eq_true, belowBound_eq_false_iff]
      exact hnl
  · intro hnl hnh wl hwl hlt
    unfold checkSensorThreshold
    rw [if_neg, if_neg, hwl]
    · simp [belowBound, hlt]
    · simp only [Bool.not_eq_true, aboveBound_eq_false_iff]
      exact hnh
    · simp only [Bool.not_eq_true, belowBound_eq_false_iff]
      exact hnl
  · intro hnl hnh hnwl wh hwh hgt
    unfold checkSensorThreshold
    rw [if_neg, if_neg, if_neg, hwh]
    · simp [aboveBound, hgt]
    · simp only [Bool.not_eq_true, belowBound_eq_false_iff]
      exact hnwl
    · simp only [Bool.not_eq_true, aboveBound_eq_false_iff]
      exact hnh
    · simp only [Bool.not_eq_true, belowBound_eq_false_iff]
      exact hnl
  · intro habsl habsh hord_low hord_high hinl hinh
    have hcl : ∀ cl, th.critical_low = some cl → cl ≤ value := by
      intro cl hcl
      cases hwl : th.warning_low with
      | none => exact absurd hcl (by rw [habsl hwl]; exact Option.noConfusion)
      | some wl =>
        have := hord_low cl wl hcl hwl
        have := hinl wl hwl
        linarith
    have hch : ∀ ch, th.critical_high = some ch → value ≤ ch := by
      intro ch hch
      cases hwh : th.warning_high with
      | none => exact absurd hch (by rw [habsh hwh]; exact Option.noConfusion)
      | some wh =>
        have := hord_high wh ch hwh hch
        have := hinh wh hwh
        linarith
    unfold checkSensorThreshold
    rw [if_neg, if_neg, if_neg, if_neg]
    · simp only [Bool.not_eq_true, aboveBound_eq_false_iff]
      intro wh hwh
      exact le_of_lt (hinh wh hwh)
    · simp only [Bool.not_eq_true, belowBound_eq_false_iff]
      intro wl hwl
      exact le_of_lt (hinl wl hwl)
    · simp only [Bool.not_eq_true, aboveBound_eq_false_iff]
      exact hch
    · simp only [Bool.not_eq_true, belowBound_eq_false_iff]
      exact hcl

/-- C3 witness: with the configured ph thresholds, a reading of 4.8 is
below the critical-low bound 5.0 and yields the critical dangerously
low alert, and a reading of 6.2 strictly inside the warning band yields
no alert. -/
theorem checkSensorThreshold_spec_witness :
    checkSensorThreshold "ph" 4.8
        ⟨some 5.0, some 5.5, some 7.5, some 8.0, some 6.0, some 7.0⟩ =
      some ⟨"critical", "ph", 4.8, 5.0, "dangerously low"⟩ ∧
    checkSensorThreshold "ph" 6.2
        ⟨some 5.0, some 5.5, some 7.5, some 8.0, some 6.0, some 7.0⟩ =
      none := by
  constructor
  · exact (checkSensorThreshold_spec "ph" 4.8
      ⟨some 5.0, some 5.5, some 7.5, some 8.0, some 6.0, some 7.0⟩).1
      5.0 rfl (by norm_num)
  · refine (checkSensorThreshold_spec "ph" 6.2
      ⟨some 5.0, some 5.5, some 7.5, some 8.0, some 6.0, some 7.0⟩).2.2.2.2
      ?_ ?_ ?_ ?_ ?_ ?_
    · intro h
      exact absurd h (by simp)
    · intro h
      exact absurd h (by simp)
    · norm_num
    · norm_num
    · norm_num
    · norm_num

/-- C9: with all four bounds configured and ordered, strict comparisons
make boundary values fall through: the critical-low boundary itself
matches the warning-low guard, the critical-high boundary the
warning-high guard, and the two warning boundaries match nothing. -/
theorem checkSensorThreshold_boundary_spec (name : String)
    (cl wl wh ch : ℚ) (om ox : Option ℚ) (th : ThresholdDict)
    (hth : th = ⟨some cl, some wl, some wh, some ch, om, ox⟩)
    (h1 : cl < wl) (h2 : wl < wh) (h3 : wh < ch) :
    checkSensorThreshold name cl th =
      some ⟨"warning", name, cl, wl, "low"⟩ ∧
    checkSensorThreshold name ch th =
      some ⟨"warning", name, ch, wh, "high"⟩ ∧
    checkSensorThreshold name wl th = none ∧
    checkSensorThreshold name wh th = none := by
  subst hth
  refine ⟨?_, ?_, ?_, ?_⟩
  · have g1 : belowBound cl (some cl) = false := by
      simp [belowBound]
    have g2 : aboveBound cl (some ch) = false := by
      simp only [aboveBound, decide_eq_false_iff_not, not_lt]
      linarith
    have g3 : belowBound cl (some wl) = true := by
      simp [belowBound, h1]
    simp [checkSensorThreshold, g1, g2, g3]
  · have g1 : belowBound ch (some cl) = false := by
      simp only [belowBound, decide_eq_false_iff_not, not_lt]
      linarith
    have g2 : aboveBound ch (some ch) = false := by
      simp [aboveBound]
    have g3 : belowBound ch (some wl) = false := by
      simp only [belowBound, decide_eq_false_iff_not, not_lt]
      linarith
    have g4 : aboveBound ch (some wh) = true := by
      simp [aboveBound, h3]
    simp [checkSensorThreshold, g1, g2, g3, g4]
  · have g1 : belowBound wl (some cl) = false := by
      simp only [belowBound, decide_eq_false_iff_not, not_lt]
      linarith
    have g2 : aboveBound wl (some ch) = false := by
      simp only [aboveBound, decide_eq_false_iff_not, not_lt]
      linarith
    have g3 : belowBound wl (some wl) = false := by
      simp [belowBound]
    have g4 : aboveBound wl (some wh) = false := by
      simp only [aboveBound, decide_eq_false_iff_not, not_lt]
      linarith
    simp [checkSensorThreshold, g1, g2, g3, g4]
  · have g1 : belowBound wh (some cl) = false := by
      simp only [belowBound, decide_eq_false_iff_not, not_lt]
      linarith
    have g2 : aboveBound wh (some ch) = false := by
      simp only [aboveBound, decide_eq_false_iff_not, not_lt]
      linarith
    have g3 : belowBound wh (some wl) = false := by
      simp only [belowBound, decide_eq_false_iff_not, not_lt]
      linarith
    have g4 : aboveBound wh (some wh) = false := by
      simp [aboveBound]
    simp [checkSensorThreshold, g1, g2, g3, g4]

/-- C2: the cooldown gate on one (sensor, level) key.  A first alert on
a fresh key is accepted and its time recorded; the identical alert
strictly less than the cooldown window later is suppressed and the
history untouched; an issue at least the window after the recorded time
is accepted again and the record overwritten.  The times are minutes,
matching timedelta(minutes=30). -/
theorem cooldownGate_scenario (history : AlertHistory) (alert : Alert)
    (t0 t1 t2 : ℚ)
    (hfresh : history (alertKey alert) = none)
    (hwithin : t1 - t0 < cooldown_minutes)
    (helapsed : cooldown_minutes ≤ t2 - t0) :
    (processAlert history alert t0).1 = true ∧
    (processAlert history alert t0).2 (alertKey alert) = some t0 ∧
    (processAlert (processAlert history alert t0).2 alert t1).1 = false ∧
    (processAlert (processAlert history alert t0).2 alert t1).2 =
      (processAlert history alert t0).2 ∧
    (processAlert (processAlert (processAlert history alert t0).2
        alert t1).2 alert t2).1 = true ∧
    (processAlert (processAlert (processAlert history alert t0).2
        alert t1).2 alert t2).2 (alertKey alert) = some t2 := by
  have hc0 : isInCooldown history alert t0 = false := by
    unfold isInCooldown
    rw [hfresh]
  have step1 : processAlert history alert t0 =
      (true, recordAlert history alert t0) := by
    unfold processAlert
    rw [hc0]
    simp
  have hrec1 : (recordAlert history alert t0) (alertKey alert) = some t0 := by
    unfold recordAlert
    rw [if_pos rfl]
  have hc1 : isInCooldown (recordAlert history alert t0) alert t1 = true := by
    unfold isInCooldown
    rw [hrec1]
    simpa using hwithin
  have step2 : processAlert (recordAlert history alert t0) alert t1 =
      (false, recordAlert history alert t0) := by
    unfold processAlert
    rw [hc1]
    simp
  have hc2 : isInCooldown (recordAlert history alert t0) alert t2 = false := by
    unfold isInCooldown
    rw [hrec1]
    simpa using not_lt.mpr helapsed
  have step3 : processAlert (recordAlert history alert t0) alert t2 =
      (true, recordAlert (recordAlert history alert t0) alert t2) := by
    unfold processAlert
    rw [hc2]
    simp
  rw [step1]
  refine ⟨rfl, hrec1, ?_, ?_, ?_, ?_⟩
  · rw [step2]
  · rw [step2]
  · rw [step2]
    simp only
    rw [step3]
  · rw [step2]
    simp only
    rw [step3]
    simp [recordAlert]

/-- C2 witness: a fresh ph critical alert at minute 0 is accepted, its
repeat at minute 29 suppressed with the record unchanged, and its
repeat at minute 30 accepted with the record overwritten. -/
theorem cooldownGate_scenario_witness :
    (processAlert (fun _ => none)
      ⟨"critical", "ph", 4, 5, "dangerously low"⟩ 0).1 = true ∧
    (processAlert (fun _ => none)
      ⟨"critical", "ph", 4, 5, "dangerously low"⟩ 0).2 "ph_critical" =
      some 0 ∧
    (processAlert (processAlert (fun _ => none)
      ⟨"critical", "ph", 4, 5, "dangerously low"⟩ 0).2
      ⟨"critical", "ph", 4, 5, "dangerously low"⟩ 29).1 = false ∧
    (processAlert (processAlert (processAlert (fun _ => none)
      ⟨"critical", "ph", 4, 5, "dangerously low"⟩ 0).2
      ⟨"critical", "ph", 4, 5, "dangerously low"⟩ 29).2
      ⟨"critical", "ph", 4, 5, "dangerously low"⟩ 30).1 = true := by
  have h := cooldownGate_scenario (fun _ => none)
    ⟨"critical", "ph", 4, 5, "dangerously low"⟩ 0 29 30 rfl
    (by norm_num [cooldown_minutes]) (by norm_num [cooldown_minutes])
  exact ⟨h.1, h.2.1, h.2.2.1, h.2.2.2.2.1⟩

/-- C10, second part as a standalone step fact is folded into the
conjunction below: checkThresholds writes the history only at the keys
of the alerts it accepts in that call, and a suppressed alert performs
no write at all. -/
theorem checkThresholds_frame :
    (∀ (table : String → Option ThresholdDict)
        (sensors : List (String × Option ℚ)) (history : AlertHistory)
        (now : ℚ) (key : String),
      key ∉ (checkThresholds table sensors history now).1.map alertKey →
      (checkThresholds table sensors history now).2 key = history key) ∧
    (∀ (history : AlertHistory) (alert : Alert) (now : ℚ),
      (processAlert history alert now).1 = false →
      (processAlert history alert now).2 = history) := by
  constructor
  · intro table sensors
    induction sensors with
    | nil =>
      intro history now key _
      rfl
    | cons head rest ih =>
      intro history now key hmem
      obtain ⟨sensor_name, value?⟩ := head
      cases value? with
      | none =>
        simp only [checkThresholds] at hmem ⊢
        exact ih history now key hmem
      | some value =>
        cases htab : table sensor_name with
        | none =>
          simp only [checkThresholds, htab] at hmem ⊢
          exact ih history now key hmem
        | some thresholds =>
          cases halert : checkSensorThreshold sensor_name value thresholds with
          | none =>
            simp only [checkThresholds, htab, halert] at hmem ⊢
            exact ih history now key hmem
          | some alert =>
            simp only [checkThresholds, htab, halert] at hmem ⊢
            by_cases hc : isInCooldown history alert now
            · have hstep : processAlert history alert now = (false, history) := by
                unfold processAlert
                rw [if_pos hc]
              simp only [hstep, Bool.false_eq_true, if_false] at hmem ⊢
              exact ih history now key hmem
            · have hstep : processAlert history alert now =
                  (true, recordAlert history alert now) := by
                unfold processAlert
                rw [if_neg hc]
              simp only [hstep, if_true, List.map_cons, List.mem_cons,
                not_or] at hmem ⊢
              obtain ⟨hne, hmem'⟩ := hmem
              rw [ih (recordAlert history alert now) now key hmem']
              unfold recordAlert
              rw [if_neg hne]
  · intro history alert now hfalse
    unfold processAlert at hfalse ⊢
    by_cases hc : isInCooldown history alert now
    · rw [if_pos hc]
    · rw [if_neg hc] at hfalse
      exact absurd hfalse (by simp)

/-- C10 witness: one accepted ph critical alert writes only the key
ph_critical; the unrelated key ec_warning keeps its prior (empty)
entry, and a suppressed repeat makes no write. -/
theorem checkThresholds_frame_witness :
    (checkThresholds alertThresholds [("ph", some 4)]
      (fun _ => none) 0).2 "ec_warning" = none ∧
    (processAlert (fun _ => some 0)
      ⟨"critical", "ph", 4, 5, "dangerously low"⟩ 1).2 = fun _ => some 0 := by
  constructor
  · refine checkThresholds_frame.1 alertThresholds [("ph", some 4)]
      (fun _ => none) 0 "ec_warning" ?_
    have halert : checkSensorThreshold "ph" 4
        ⟨some 5.0, some 5.5, some 7.5, some 8.0, some 6.0, some 7.0⟩ =
        some ⟨"critical", "ph", 4, 5.0, "dangerously low"⟩ := by
      unfold checkSensorThreshold
      have g1 : belowBound 4 (some 5.0) = true := by
        simp only [belowBound, decide_eq_true_eq]
        norm_num
      rw [g1]
      simp
    have htab : alertThresholds "ph" =
        some ⟨some 5.0, some 5.5, some 7.5, some 8.0, some 6.0, some 7.0⟩ := by
      unfold alertThresholds
      rw [if_pos rfl]
    have hc : isInCooldown (fun _ => none)
        ⟨"critical", "ph", 4, 5.0, "dangerously low"⟩ 0 = false := rfl
    have hstep : processAlert (fun _ => none)
        ⟨"critical", "ph", 4, 5.0, "dangerously low"⟩ 0 =
        (true, recordAlert (fun _ => none)
          ⟨"critical", "ph", 4, 5.0, "dangerously low"⟩ 0) := by
      unfold processAlert
      rw [hc]
      simp
    simp only [checkThresholds, htab, halert, hstep, if_true,
      List.map_cons, List.map_nil, List.mem_cons, List.not_mem_nil,
      or_false, alertKey]
    decide
  · refine checkThresholds_frame.2 (fun _ => some 0)
      ⟨"critical", "ph", 4, 5, "dangerously low"⟩ 1 ?_
    have hc : isInCooldown (fun _ => some 0)
        ⟨"critical", "ph", 4, 5, "dangerously low"⟩ 1 = true := by
      unfold isInCooldown
      simp only
      rw [decide_eq_true_eq]
      norm_num [cooldown_minutes]
    unfold processAlert
    rw [hc]
    simp

/-- Rounding an integer value changes nothing. -/
theorem roundHalfEven_intCast (n : ℤ) : roundHalfEven (n : ℚ) = n := by
  unfold roundHalfEven
  rw [Int.floor_intCast]
  norm_num

/-- C4: with defined predictive thresholds, a falling trend is
escalated in priority order critical (projected hours to critical_low
defined and below 12), warning (hours to warning_low defined and below
24), watch (still above optimal_low), none; the mirror rule applies to
a rising trend against the high-side bounds; a stable trend is none
inside the optimal band and watch outside; and the reported
time_to_threshold is the projected hours rounded to one decimal.  The
rate-sign hypotheses reflect that _calculate_trend only pairs falling
with a negative rate and rising with a positive one. -/
theorem assessConcern_spec (parameter : String) (th : PredThresh)
    (current rate : ℚ)
    (hth : predictiveThresholds parameter = some th) :
    (rate < 0 →
      ((th.critical_low < current ∧
          (current - th.critical_low) / |rate| < 12 →
        assessConcern parameter current "falling" rate =
          ⟨"critical",
            some (round1 ((current - th.critical_low) / |rate|))⟩) ∧
       (¬(th.critical_low < current ∧
          (current - th.critical_low) / |rate| < 12) →
        th.warning_low < current ∧
          (current - th.warning_low) / |rate| < 24 →
        assessConcern parameter current "falling" rate =
          ⟨"warning",
            some (round1 ((current - th.warning_low) / |rate|))⟩) ∧
       (¬(th.critical_low < current ∧
          (current - th.critical_low) / |rate| < 12) →
        ¬(th.warning_low < current ∧
          (current - th.warning_low) / |rate| < 24) →
        th.optimal_low < current →
        assessConcern parameter current "falling" rate =
          ⟨"watch", none⟩) ∧
       (¬(th.critical_low < current ∧
          (current - th.critical_low) / |rate| < 12) →
        ¬(th.warning_low < current ∧
          (current - th.warning_low) / |rate| < 24) →
        current ≤ th.optimal_low →
        assessConcern parameter current "falling" rate =
          ⟨"none", none⟩))) ∧
    (0 < rate →
      ((current < th.critical_high ∧
          (th.critical_high - current) / rate < 12 →
        assessConcern parameter current "rising" rate =
          ⟨"critical",
            some (round1 ((th.critical_high - current) / rate))⟩) ∧
       (¬(current < th.critical_high ∧
          (th.critical_high - current) / rate < 12) →
        current < th.warning_high ∧
          (th.warning_high - current) / rate < 24 →
        assessConcern parameter current "rising" rate =
          ⟨"warning",
            some (round1 ((th.warning_high - current) / rate))⟩) ∧
       (¬(current < th.critical_high ∧
          (th.critical_high - current) / rate < 12) →
        ¬(current < th.warning_high ∧
          (th.warning_high - current) / rate < 24) →
        current < th.optimal_high →
        assessConcern parameter current "rising" rate =
          ⟨"watch", none⟩) ∧
       (¬(current < th.critical_high ∧
          (th.critical_high - current) / rate < 12) →
        ¬(current < th.warning_high ∧
          (th.warning_high - current) / rate < 24) →
        th.optimal_high ≤ current →
        assessConcern parameter current "rising" rate =
          ⟨"none", none⟩))) ∧
    ((th.optimal_low ≤ current ∧ current ≤ th.optimal_high →
      assessConcern parameter current "stable" rate = ⟨"none", none⟩) ∧
     (¬(th.optimal_low ≤ current ∧ current ≤ th.optimal_high) →
      assessConcern parameter current "stable" rate = ⟨"watch", none⟩)) := by
  refine ⟨?_, ?_, ?_⟩
  · intro hr
    have habs : (0 : ℚ) < |rate| := abs_pos.mpr (ne_of_lt hr)
    have base : assessConcern parameter current "falling" rate =
        (if truthyLt (if th.critical_low < current then
            some ((current - th.critical_low) / |rate|) else none) 12 then
          Concern.mk "critical" (Option.map round1
            (if th.critical_low < current then
              some ((current - th.critical_low) / |rate|) else none))
        else if truthyLt (if th.warning_low < current then
            some ((current - th.warning_low) / |rate|) else none) 24 then
          Concern.mk "warning" (Option.map round1
            (if th.warning_low < current then
              some ((current - th.warning_low) / |rate|) else none))
        else if th.optimal_low < current then ⟨"watch", none⟩
        else ⟨"none", none⟩) := by
      unfold assessConcern
      simp only [hth]
      rw [if_pos (show True ∧ rate < 0 from ⟨trivial, hr⟩)]
    refine ⟨?_, ?_, ?_, ?_⟩
    · intro h1
      have hpos : 0 < (current - th.critical_low) / |rate| :=
        div_pos (sub_pos.mpr h1.1) habs
      have ht : truthyLt (some ((current - th.critical_low) / |rate|))
          12 = true := by
        simp only [truthyLt, decide_eq_true_eq]
        exact ⟨ne_of_gt hpos, h1.2⟩
      rw [base, if_pos h1.1, ht]
      simp
    · intro h1n h2
      have htc : truthyLt (if th.critical_low < current then
          some ((current - th.critical_low) / |rate|) else none) 12 =
          false := by
        by_cases hcl : th.critical_low < current
        · rw [if_pos hcl]
          simp only [truthyLt, decide_eq_false_iff_not]
          intro hand
          exact h1n ⟨hcl, hand.2⟩
        · rw [if_neg hcl]
          rfl
      have hpos : 0 < (current - th.warning_low) / |rate| :=
        div_pos (sub_pos.mpr h2.1) habs
      have ht : truthyLt (some ((current - th.warning_low) / |rate|))
          24 = true := by
        simp only [truthyLt, decide_eq_true_eq]
        exact ⟨ne_of_gt hpos, h2.2⟩
      rw [base, htc]
      simp only [Bool.false_eq_true, if_false]
      rw [if_pos h2.1, ht]
      simp
    · intro h1n h2n hopt
      have htc : truthyLt (if th.critical_low < current then
          some ((current - th.critical_low) / |rate|) else none) 12 =
          false := by
        by_cases hcl : th.critical_low < current
        · rw [if_pos hcl]
          simp only [truthyLt, decide_eq_false_iff_not]
          intro hand
          exact h1n ⟨hcl, hand.2⟩
        · rw [if_neg hcl]
          rfl
      have htw : truthyLt (if th.warning_low < current then
          some ((current - th.warning_low) / |rate|) else none) 24 =
          false := by
        by_cases hwl : th.warning_low < current
        · rw [if_pos hwl]
          simp only [truthyLt, decide_eq_false_iff_not]
          intro hand
          exact h2n ⟨hwl, hand.2⟩
        · rw [if_neg hwl]
          rfl
      rw [base, htc, htw]
      simp only [Bool.false_eq_true, if_false]
      rw [if_pos hopt]
    · intro h1n h2n hopt
      have htc : truthyLt (if th.critical_low < current then
          some ((current - th.critical_low) / |rate|) else none) 12 =
          false := by
        by_cases hcl : th.critical_low < current
        · rw [if_pos hcl]
          simp only [truthyLt, decide_eq_false_iff_not]
          intro hand
          exact h1n ⟨hcl, hand.2⟩
        · rw [if_neg hcl]
          rfl
      have htw : truthyLt (if th.warning_low < current then
          some ((current - th.warning_low) / |rate|) else none) 24 =
          false := by
        by_cases hwl : th.warning_low < current
        · rw [if_pos hwl]
          simp only [truthyLt, decide_eq_false_iff_not]
          intro hand
          exact h2n ⟨hwl, hand.2⟩
        · rw [if_neg hwl]
          rfl
      rw [base, htc, htw]
      simp only [Bool.false_eq_true, if_false]
      rw [if_neg (not_lt.mpr hopt)]
  · intro hr
    have base : assessConcern parameter current "rising" rate =
        (if truthyLt (if current < th.critical_high then
            some ((th.critical_high - current) / rate) else none) 12 then
          Concern.mk "critical" (Option.map round1
            (if current < th.critical_high then
              some ((th.critical_high - current) / rate) else none))
        else if truthyLt (if current < th.warning_high then
            some ((th.warning_high - current) / rate) else none) 24 then
          Concern.mk "warning" (Option.map round1
            (if current < th.warning_high then
              some ((th.warning_high - current) / rate) else none))
        else if current < th.optimal_high then ⟨"watch", none⟩
        else ⟨"none", none⟩) := by
      unfold assessConcern
      simp only [hth]
      rw [if_neg (show ¬(("rising" : String) = "falling" ∧ rate < 0) from
        fun h => absurd h.1 (by decide))]
      rw [if_pos (show True ∧ 0 < rate from ⟨trivial, hr⟩)]
    refine ⟨?_, ?_, ?_, ?_⟩
    · intro h1
      have hpos : 0 < (th.critical_high - current) / rate :=
        div_pos (sub_pos.mpr h1.1) hr
      have ht : truthyLt (some ((th.critical_high - current) / rate))
          12 = true := by
        simp only [truthyLt, decide_eq_true_eq]
        exact ⟨ne_of_gt hpos, h1.2⟩
      rw [base, if_pos h1.1, ht]
      simp
    · intro h1n h2
      have htc : truthyLt (if current < th.critical_high then
          some ((th.critical_high - current) / rate) else none) 12 =
          false := by
        by_cases hch : current < th.critical_high
        · rw [if_pos hch]
          simp only [truthyLt, decide_eq_false_iff_not]
          intro hand
          exact h1n ⟨hch, hand.2⟩
        · rw [if_neg hch]
          rfl
      have hpos : 0 < (th.warning_high - current) / rate :=
        div_pos (sub_pos.mpr h2.1) hr
      have ht : truthyLt (some ((th.warning_high - current) / rate))
          24 = true := by
        simp only [truthyLt, decide_eq_true_eq]
        exact ⟨ne_of_gt hpos, h2.2⟩
      rw [base, htc]
      simp only [Bool.false_eq_true, if_false]
      rw [if_pos h2.1, ht]
      simp
    · intro h1n h2n hopt
      have htc : truthyLt (if current < th.critical_high then
          some ((th.critical_high - current) / rate) else none) 12 =
          false := by
        by_cases hch : current < th.critical_high
        · rw [if_pos hch]
          simp only [truthyLt, decide_eq_false_iff_not]
          intro hand
          exact h1n ⟨hch, hand.2⟩
        · rw [if_neg hch]
          rfl
      have htw : truthyLt (if current < th.warning_high then
          some ((th.warning_high - current) / rate) else none) 24 =
          false := by
        by_cases hwh : current < th.warning_high
        · rw [if_pos hwh]
          simp only [truthyLt, decide_eq_false_iff_not]
          intro hand
          exact h2n ⟨hwh, hand.2⟩
        · rw [if_neg hwh]
          rfl
      rw [base, htc, htw]
      simp only [Bool.false_eq_true, if_false]
      rw [if_pos hopt]
    · intro h1n h2n hopt
      have htc : truthyLt (if current < th.critical_high then
          some ((th.critical_high - current) / rate) else none) 12 =
          false := by
        by_cases hch : current < th.critical_high
        · rw [if_pos hch]
          simp only [truthyLt, decide_eq_false_iff_not]
          intro hand
          exact h1n ⟨hch, hand.2⟩
        · rw [if_neg hch]
          rfl
      have htw : truthyLt (if current < th.warning_high then
          some ((th.warning_high - current) / rate) else none) 24 =
          false := by
        by_cases hwh : current < th.warning_high
        · rw [if_pos hwh]
          simp only [truthyLt, decide_eq_false_iff_not]
          intro hand
          exact h2n ⟨hwh, hand.2⟩
        · rw [if_neg hwh]
          rfl
      rw [base, htc, htw]
      simp only [Bool.false_eq_true, if_false]
      rw [if_neg (not_lt.mpr hopt)]
  · have hne1 : ¬(("stable" : String) = "falling" ∧ rate < 0) :=
      fun h => absurd h.1 (by decide)
    have hne2 : ¬(("stable" : String) = "rising" ∧ 0 < rate) :=
      fun h => absurd h.1 (by decide)
    constructor
    · intro h
      unfold assessConcern
      simp only [hth]
      rw [if_neg hne1, if_neg hne2, if_pos h]
    · intro h
      unfold assessConcern
      simp only [hth]
      rw [if_neg hne1, if_neg hne2, if_neg h]

/-- C1 counterexample: with both required pattern conditions met
(ph 6.0 below 6.5 and falling, do 4.0 below 7 and falling) but the
time_to_threshold entries stored as None -- exactly what
TrendAnalyzer produces for a falling series already at the bounds --
min(None, None) raises a TypeError, modelled as result none, so the
call does not return normally. -/
theorem biofilter_cascade_null_tt_counterexample :
    ((6.0 : ℚ) < 6.5 ∧ (4.0 : ℚ) < 7) ∧
    analyzeCorrelationsAdvanced
      { ph := some 6.0, temperature := none, do_ := some 4.0 }
      { ph := some { trend := some "falling",
                     concern_level := some "none",
                     time_to_threshold := PyNum.null },
        temperature := none,
        do_ := some { trend := some "falling",
                      concern_level := some "none",
                      time_to_threshold := PyNum.null } } = none := by
  refine ⟨⟨by norm_num, by norm_num⟩, ?_⟩
  norm_num [analyzeCorrelationsAdvanced, PyNum.getD, pyMin]

/-- C1 amended: whenever the stored time_to_threshold values are
numbers a and b, the biofilter pattern returns normally with root cause
Biofilter collapse cascade, the four interventions in order raise pH,
maximize aeration, stop feeding, monitor ammonia, and binding urgency
figure min a b. -/
theorem biofilter_cascade_spec (readings : Readings) (trends : Trends)
    (p d a b : ℚ) (pt dt : TrendEntry)
    (hp : readings.ph = some p) (hplt : p < 6.5)
    (hpt : trends.ph = some pt) (hptf : pt.trend = some "falling")
    (hpta : pt.time_to_threshold = PyNum.val a)
    (hd : readings.do_ = some d) (hdlt : d < 7)
    (hdt : trends.do_ = some dt) (hdtf : dt.trend = some "falling")
    (hdtb : dt.time_to_threshold = PyNum.val b) :
    ∃ analysis,
      analyzeCorrelationsAdvanced readings trends = some analysis ∧
      analysis.root_cause = some "Biofilter collapse cascade" ∧
      analysis.system_state = "critical_cascade" ∧
      analysis.intervention_priority.map (fun i => (i.order, i.action)) =
        [(1, "IMMEDIATE: Raise pH to 7.0+"),
         (2, "IMMEDIATE: Maximize aeration"),
         (3, "Stop feeding for 24-48h"),
         (4, "Monitor ammonia every 2 hours")] ∧
      analysis.critical_hours = some (min a b) := by
  unfold analyzeCorrelationsAdvanced
  rw [hp, hpt, hd, hdt]
  simp only [Option.getD_some]
  rw [if_pos ⟨hplt, hptf, hdlt, hdtf⟩, hpta, hdtb]
  simp only [PyNum.getD, pyMin]
  exact ⟨_, rfl, rfl, rfl, rfl, rfl⟩

/-- C1 witness: ph 6.2 falling with 8 hours to threshold and do 5.5
falling with 10 hours give critical_hours min 8 10 = 8. -/
theorem biofilter_cascade_spec_witness :
    ∃ analysis,
      analyzeCorrelationsAdvanced
        { ph := some 6.2, temperature := none, do_ := some 5.5 }
        { ph := some { trend := some "falling",
                       concern_level := some "critical",
                       time_to_threshold := PyNum.val 8 },
          temperature := none,
          do_ := some { trend := some "falling",
                        concern_level := some "warning",
                        time_to_threshold := PyNum.val 10 } } = some analysis ∧
      analysis.root_cause = some "Biofilter collapse cascade" ∧
      analysis.critical_hours = some 8 := by
  obtain ⟨A, hA, hrc, _, _, hch⟩ := biofilter_cascade_spec
    { ph := some 6.2, temperature := none, do_ := some 5.5 }
    { ph := some { trend := some "falling",
                   concern_level := some "critical",
                   time_to_threshold := PyNum.val 8 },
      temperature := none,
      do_ := some { trend := some "falling",
                    concern_level := some "warning",
                    time_to_threshold := PyNum.val 10 } }
    6.2 5.5 8 10
    { trend := some "falling", concern_level := some "critical",
      time_to_threshold := PyNum.val 8 }
    { trend := some "falling", concern_level := some "warning",
      time_to_threshold := PyNum.val 10 }
    rfl (by norm_num) rfl rfl rfl rfl (by norm_num) rfl rfl rfl
  refine ⟨A, hA, hrc, ?_⟩
  rw [hch]
  norm_num [min_def]

/-- C8: readings inside the optimal bands of the predictive threshold
table with all three trends stable reach the fourth pattern: the state
is optimal_stable, no intervention is emitted, and no cascade or
predictive pattern fires (root cause stays none). -/
theorem optimal_stable_spec (readings : Readings) (trends : Trends)
    (p t d : ℚ) (pt tt_ dt : TrendEntry)
    (hp : readings.ph = some p) (ht : readings.temperature = some t)
    (hd : readings.do_ = some d)
    (hpt : trends.ph = some pt) (htt : trends.temperature = some tt_)
    (hdt : trends.do_ = some dt)
    (hpb : inOptimalBand "ph" p) (htb : inOptimalBand "temperature" t)
    (hdb : inOptimalBand "do" d)
    (hpts : pt.trend = some "stable") (htts : tt_.trend = some "stable")
    (hdts : dt.trend = some "stable") :
    analyzeCorrelationsAdvanced readings trends =
      some { root_cause := none, cascading_effects := [],
             intervention_priority := [],
             system_state := "optimal_stable", critical_hours := none } := by
  obtain ⟨thp, hthp, hp1, hp2⟩ := hpb
  obtain ⟨tht, htht, ht1, ht2⟩ := htb
  obtain ⟨thd, hthd, hd1, hd2⟩ := hdb
  have hthp' : predictiveThresholds "ph" =
      some ⟨6.0, 6.5, 6.8, 7.5, 8.0, 8.5⟩ := by
    unfold predictiveThresholds
    rw [if_pos rfl]
  have htht' : predictiveThresholds "temperature" =
      some ⟨15, 18, 20, 24, 26, 28⟩ := by
    unfold predictiveThresholds
    rw [if_neg (by decide), if_pos rfl]
  have hthd' : predictiveThresholds "do" =
      some ⟨4, 6, 7, 10, 12, 15⟩ := by
    unfold predictiveThresholds
    rw [if_neg (by decide), if_neg (by decide), if_pos rfl]
  rw [hthp'] at hthp
  rw [htht'] at htht
  rw [hthd'] at hthd
  obtain rfl : thp = ⟨6.0, 6.5, 6.8, 7.5, 8.0, 8.5⟩ :=
    (Option.some_injective _ hthp).symm
  obtain rfl : tht = ⟨15, 18, 20, 24, 26, 28⟩ :=
    (Option.some_injective _ htht).symm
  obtain rfl : thd = ⟨4, 6, 7, 10, 12, 15⟩ :=
    (Option.some_injective _ hthd).symm
  norm_num at hp1 hp2 ht1 ht2 hd1 hd2
  have hsf : (some "stable" : Option String) ≠ some "falling" := by decide
  have hsr : (some "stable" : Option String) ≠ some "rising" := by decide
  unfold analyzeCorrelationsAdvanced
  rw [hp, ht, hd, hpt, htt, hdt]
  simp only [Option.getD_some]
  simp only [hpts, htts, hdts]
  rw [if_neg (fun h => hsf h.2.1)]
  rw [if_neg (fun h => hsr h.2.1)]
  rw [if_neg (fun h => hsf h.1)]
  rw [if_pos ⟨by linarith, by linarith, by linarith, by linarith,
    by linarith, trivial, trivial, trivial⟩]

/-- C8 witness: ph 7.0, temperature 21, do 7.5, all trends stable. -/
theorem optimal_stable_spec_witness :
    analyzeCorrelationsAdvanced
      { ph := some 7.0, temperature := some 21, do_ := some 7.5 }
      { ph := some { trend := some "stable" },
        temperature := some { trend := some "stable" },
        do_ := some { trend := some "stable" } } =
      some { root_cause := none, cascading_effects := [],
             intervention_priority := [],
             system_state := "optimal_stable", critical_hours := none } := by
  refine optimal_stable_spec _ _ 7.0 21 7.5
    { trend := some "stable" } { trend := some "stable" }
    { trend := some "stable" }
    rfl rfl rfl rfl rfl rfl ?_ ?_ ?_ rfl rfl rfl
  · refine ⟨⟨6.0, 6.5, 6.8, 7.5, 8.0, 8.5⟩, ?_, by norm_num, by norm_num⟩
    unfold predictiveThresholds
    rw [if_pos rfl]
  · refine ⟨⟨15, 18, 20, 24, 26, 28⟩, ?_, by norm_num, by norm_num⟩
    unfold predictiveThresholds
    rw [if_neg (by decide), if_pos rfl]
  · refine ⟨⟨4, 6, 7, 10, 12, 15⟩, ?_, by norm_num, by norm_num⟩
    unfold predictiveThresholds
    rw [if_neg (by decide), if_neg (by decide), if_pos rfl]

/-- C4 witness: ph at 6.4 falling at 0.1 per hour reaches the critical
bound 6.0 in 4 hours, below 12, so the level is critical with
time_to_threshold 4.0. -/
theorem assessConcern_spec_witness :
    assessConcern "ph" 6.4 "falling" (-1 / 10) =
      ⟨"critical", some 4⟩ := by
  have hth : predictiveThresholds "ph" =
      some ⟨6.0, 6.5, 6.8, 7.5, 8.0, 8.5⟩ := by
    unfold predictiveThresholds
    rw [if_pos rfl]
  have h := ((assessConcern_spec "ph" ⟨6.0, 6.5, 6.8, 7.5, 8.0, 8.5⟩
    6.4 (-1 / 10) hth).1 (by norm_num)).1
    ⟨by norm_num, by norm_num [abs]⟩
  rw [h]
  have harg : ((6.4 : ℚ) - 6.0) / |(-1 / 10 : ℚ)| = 4 := by
    norm_num [abs]
  rw [harg]
  have h40 : (10 : ℚ) * 4 = ((40 : ℤ) : ℚ) := by norm_num
  unfold round1
  rw [h40, roundHalfEven_intCast]
  norm_num
theorem checkSensorThreshold_boundary_spec_witness :
    checkSensorThreshold "ph" 5.0
        ⟨some 5.0, some 5.5, some 7.5, some 8.0, some 6.0, some 7.0⟩ =
      some ⟨"warning", "ph", 5.0, 5.5, "low"⟩ ∧
    checkSensorThreshold "ph" 8.0
        ⟨some 5.0, some 5.5, some 7.5, some 8.0, some 6.0, some 7.0⟩ =
      some ⟨"warning", "ph", 8.0, 7.5, "high"⟩ ∧
    checkSensorThreshold "ph" 5.5
        ⟨some 5.0, some 5.5, some 7.5, some 8.0, some 6.0, some 7.0⟩ =
      none ∧
    checkSensorThreshold "ph" 7.5
        ⟨some 5.0, some 5.5, some 7.5, some 8.0, some 6.0, some 7.0⟩ =
      none :=
  checkSensorThreshold_boundary_spec "ph" 5.0 5.5 7.5 8.0
    (some 6.0) (some 7.0) _ rfl (by norm_num) (by norm_num) (by norm_num)
